import Mathlib

/-!
Verification of the `rust-linear-algebra` library against its specification.

The Rust `f64` values are modelled by real numbers (ℝ): the algebraic claims of
the specification are statements about exact arithmetic.  Fallible operations
(Rust panics) are modelled by `Except`/`Option` results.  A separate small
model of IEEE special values (`FP`, below) is used for the claims that are
specifically about `NaN`/`Infinity` propagation.
-/

noncomputable section

open Real

/-- Embedding of `CartesianVector` (src/vectors/mod.rs): a 3D vector with
`x`, `y`, `z` components. -/
structure CartesianVector where
  x : ℝ
  y : ℝ
  z : ℝ
  deriving DecidableEq

/-- Embedding of `SphericalVector` (src/vectors/mod.rs): radius, right
ascension, declination. -/
structure SphericalVector where
  r : ℝ
  right_ascension : ℝ
  declination : ℝ
  deriving DecidableEq

namespace CartesianVector

/-- Embedding of `CartesianVector::new` (src/vectors/mod.rs:52-54). -/
def new (x y z : ℝ) : CartesianVector := ⟨x, y, z⟩

/-- Embedding of `CartesianVector::plus` (src/vectors/mod.rs:143-149). -/
def plus (v other : CartesianVector) : CartesianVector :=
  ⟨v.x + other.x, v.y + other.y, v.z + other.z⟩

/-- Embedding of `CartesianVector::minus` (src/vectors/mod.rs:160-166). -/
def minus (v other : CartesianVector) : CartesianVector :=
  ⟨v.x - other.x, v.y - other.y, v.z - other.z⟩

/-- Embedding of `CartesianVector::dot` (src/vectors/mod.rs:177-179). -/
def dot (v other : CartesianVector) : ℝ :=
  v.x * other.x + v.y * other.y + v.z * other.z

/-- Embedding of `CartesianVector::scale` (src/vectors/mod.rs:189-195). -/
def scale (v : CartesianVector) (scalar : ℝ) : CartesianVector :=
  ⟨v.x * scalar, v.y * scalar, v.z * scalar⟩

/-- Embedding of `CartesianVector::cross` (src/vectors/mod.rs:206-212). -/
def cross (v other : CartesianVector) : CartesianVector :=
  ⟨v.y * other.z - v.z * other.y,
   v.z * other.x - v.x * other.z,
   v.x * other.y - v.y * other.x⟩

/-- Embedding of `CartesianVector::magnitude` (src/vectors/mod.rs:222-224). -/
def magnitude (v : CartesianVector) : ℝ :=
  Real.sqrt (v.x * v.x + v.y * v.y + v.z * v.z)

/-- Embedding of `CartesianVector::normalize` (src/vectors/mod.rs:234-237):
`scale(1.0 / magnitude())`. -/
def normalize (v : CartesianVector) : CartesianVector :=
  v.scale (1 / v.magnitude)

/-- Embedding of `f64::atan2` restricted to exact real arguments: the IEEE `atan2(y, x)`
convention, in particular `atan2(0, 0) = 0`. -/
def atan2 (y x : ℝ) : ℝ :=
  if 0 < x then Real.arctan (y / x)
  else if x < 0 then
    (if 0 ≤ y then Real.arctan (y / x) + Real.pi else Real.arctan (y / x) - Real.pi)
  else
    (if 0 < y then Real.pi / 2 else if y < 0 then -(Real.pi / 2) else 0)

/-- Embedding of `CartesianVector::to_spherical` (src/vectors/mod.rs:259-268):
`r = magnitude()`, `right_ascension = y.atan2(x)`, `declination = acos(z / r)`. -/
def to_spherical (v : CartesianVector) : SphericalVector :=
  ⟨v.magnitude, atan2 v.y v.x, Real.arccos (v.z / v.magnitude)⟩

/-- Embedding of `CartesianVector::rotate_about_x` (src/vectors/mod.rs:278-283). -/
def rotate_about_x (v : CartesianVector) (angle : ℝ) : CartesianVector :=
  ⟨v.x,
   v.y * Real.cos angle - v.z * Real.sin angle,
   v.y * Real.sin angle + v.z * Real.cos angle⟩

end CartesianVector

namespace SphericalVector

/-- Embedding of `SphericalVector::new` (src/vectors/mod.rs:349-355). -/
def new (r right_ascension declination : ℝ) : SphericalVector :=
  ⟨r, right_ascension, declination⟩

/-- Embedding of `SphericalVector::to_cartesian` (src/vectors/mod.rs:365-370):
`x = r·cos(ra)·cos(decl)`, `y = r·sin(ra)·cos(decl)`, `z = r·sin(decl)`. -/
def to_cartesian (v : SphericalVector) : CartesianVector :=
  ⟨v.r * Real.cos v.right_ascension * Real.cos v.declination,
   v.r * Real.sin v.right_ascension * Real.cos v.declination,
   v.r * Real.sin v.declination⟩

end SphericalVector

/-- Model of IEEE-754 `f64` values for the claims that are specifically about
special-value (`NaN`/`Infinity`) propagation: finite values are carried as
exact reals, `inf b` is `+∞` when `b = false` and `−∞` when `b = true`. -/
inductive FP where
  | fin : ℝ → FP
  | inf : Bool → FP
  | nan : FP

namespace FP

/-- IEEE `f64` addition on the `FP` model (exact on finite values). -/
def add : FP → FP → FP
  | nan, _ => nan
  | _, nan => nan
  | fin x, fin y => fin (x + y)
  | fin _, inf s => inf s
  | inf s, fin _ => inf s
  | inf s, inf t => if s = t then inf s else nan

/-- IEEE `f64` multiplication on the `FP` model: `0 * ∞ = NaN`. -/
def mul : FP → FP → FP
  | nan, _ => nan
  | _, nan => nan
  | fin x, fin y => fin (x * y)
  | fin x, inf s => if x = 0 then nan else inf (if x < 0 then !s else s)
  | inf s, fin x => if x = 0 then nan else inf (if x < 0 then !s else s)
  | inf s, inf t => inf (s != t)

/-- IEEE `f64` division on the `FP` model: `x / 0 = ±∞` for `x ≠ 0`,
`0 / 0 = NaN`. -/
def div : FP → FP → FP
  | nan, _ => nan
  | _, nan => nan
  | fin x, fin y =>
      if y = 0 then (if x = 0 then nan else inf (decide (x < 0))) else fin (x / y)
  | fin _, inf _ => fin 0
  | inf s, fin y => inf (if y < 0 then !s else s)
  | inf _, inf _ => nan

/-- IEEE `f64` square root on the `FP` model: `NaN` on negative inputs. -/
def sqrt : FP → FP
  | nan => nan
  | inf s => if s then nan else inf false
  | fin x => if x < 0 then nan else fin (Real.sqrt x)

end FP

/-- Embedding of `CartesianVector` with components in the `FP` model, used for the claims
about `NaN`/`Infinity` propagation in `normalize`. -/
structure FPCartesianVector where
  x : FP
  y : FP
  z : FP

namespace FPCartesianVector

/-- Embedding of `CartesianVector::magnitude` (src/vectors/mod.rs:222-224) over the `FP`
model: `(x*x + y*y + z*z).sqrt()`. -/
def magnitude (v : FPCartesianVector) : FP :=
  FP.sqrt (FP.add (FP.add (FP.mul v.x v.x) (FP.mul v.y v.y)) (FP.mul v.z v.z))

/-- Embedding of `CartesianVector::scale` (src/vectors/mod.rs:189-195) over the `FP`
model. -/
def scale (v : FPCartesianVector) (scalar : FP) : FPCartesianVector :=
  ⟨FP.mul v.x scalar, FP.mul v.y scalar, FP.mul v.z scalar⟩

/-- Embedding of `CartesianVector::normalize` (src/vectors/mod.rs:234-237) over the `FP`
model: `let mag = self.magnitude(); self.scale(1.0 / mag)`. -/
def normalize (v : FPCartesianVector) : FPCartesianVector :=
  v.scale (FP.div (FP.fin 1) v.magnitude)

end FPCartesianVector

/-- Indexing into a list of `FP` values; the default is never reached on the
in-bounds accesses performed by the fixed-length helpers below. -/
def fpIdx (l : List FP) (i : Nat) : FP :=
  (l.get? i).getD FP.nan

namespace FPDynVectors

/-- Embedding of `_magnitude_3d` (src/vectors.rs:110-112) over the `FP` model. -/
def _magnitude_3d (v : List FP) : FP :=
  FP.sqrt (FP.add (FP.add (FP.mul (fpIdx v 0) (fpIdx v 0))
    (FP.mul (fpIdx v 1) (fpIdx v 1))) (FP.mul (fpIdx v 2) (fpIdx v 2)))

/-- Embedding of `_scale_3d` (src/vectors.rs:102-104) over the `FP` model. -/
def _scale_3d (v : List FP) (scalar : FP) : List FP :=
  [FP.mul (fpIdx v 0) scalar, FP.mul (fpIdx v 1) scalar, FP.mul (fpIdx v 2) scalar]

/-- Embedding of `_normalize_3d` (src/vectors.rs:119-122) over the `FP` model:
`_scale_3d(vector, 1.0 / _magnitude_3d(vector))`. -/
def _normalize_3d (v : List FP) : List FP :=
  _scale_3d v (FP.div (FP.fin 1) (_magnitude_3d v))

end FPDynVectors

/-- The two ways the dynamic dispatchers in src/vectors.rs abort: the
explicit `panic!("Not implemented")` on an unsupported dimension, and the
implicit index-out-of-bounds panic of slice indexing. -/
inductive PanicKind where
  | notImplemented
  | indexOutOfBounds
  deriving DecidableEq

/-- A Rust expression whose indexing may panic, as an `Except`: `none`
(out-of-bounds indexing) becomes an `indexOutOfBounds` panic. -/
def liftPanic {α : Type} (o : Option α) : Except PanicKind α :=
  match o with
  | some r => Except.ok r
  | none => Except.error PanicKind.indexOutOfBounds

namespace DynVectors

/-- Embedding of `_add_2d` (src/vectors.rs:58-60). -/
def _add_2d (v1 v2 : List ℝ) : Option (List ℝ) := do
  pure [(← v1.get? 0) + (← v2.get? 0), (← v1.get? 1) + (← v2.get? 1)]

/-- Embedding of `_add_3d` (src/vectors.rs:62-68). -/
def _add_3d (v1 v2 : List ℝ) : Option (List ℝ) := do
  pure [(← v1.get? 0) + (← v2.get? 0), (← v1.get? 1) + (← v2.get? 1),
    (← v1.get? 2) + (← v2.get? 2)]

/-- Embedding of `_subtract_2d` (src/vectors.rs:70-72). -/
def _subtract_2d (v1 v2 : List ℝ) : Option (List ℝ) := do
  pure [(← v1.get? 0) - (← v2.get? 0), (← v1.get? 1) - (← v2.get? 1)]

/-- Embedding of `_subtract_3d` (src/vectors.rs:74-80). -/
def _subtract_3d (v1 v2 : List ℝ) : Option (List ℝ) := do
  pure [(← v1.get? 0) - (← v2.get? 0), (← v1.get? 1) - (← v2.get? 1),
    (← v1.get? 2) - (← v2.get? 2)]

/-- Embedding of `_cross_3d` (src/vectors.rs:82-88). -/
def _cross_3d (v1 v2 : List ℝ) : Option (List ℝ) := do
  pure [(← v1.get? 1) * (← v2.get? 2) - (← v1.get? 2) * (← v2.get? 1),
    (← v1.get? 2) * (← v2.get? 0) - (← v1.get? 0) * (← v2.get? 2),
    (← v1.get? 0) * (← v2.get? 1) - (← v1.get? 1) * (← v2.get? 0)]

/-- Embedding of `_dot_2d` (src/vectors.rs:90-92). -/
def _dot_2d (v1 v2 : List ℝ) : Option ℝ := do
  pure ((← v1.get? 0) * (← v2.get? 0) + (← v1.get? 1) * (← v2.get? 1))

/-- Embedding of `_dot_3d` (src/vectors.rs:94-96). -/
def _dot_3d (v1 v2 : List ℝ) : Option ℝ := do
  pure ((← v1.get? 0) * (← v2.get? 0) + (← v1.get? 1) * (← v2.get? 1) +
    (← v1.get? 2) * (← v2.get? 2))

/-- Embedding of `_scale_2d` (src/vectors.rs:98-100). -/
def _scale_2d (v : List ℝ) (scalar : ℝ) : Option (List ℝ) := do
  pure [(← v.get? 0) * scalar, (← v.get? 1) * scalar]

/-- Embedding of `_scale_3d` (src/vectors.rs:102-104). -/
def _scale_3d (v : List ℝ) (scalar : ℝ) : Option (List ℝ) := do
  pure [(← v.get? 0) * scalar, (← v.get? 1) * scalar, (← v.get? 2) * scalar]

/-- Embedding of `_magnitude_2d` (src/vectors.rs:106-108). -/
def _magnitude_2d (v : List ℝ) : Option ℝ := do
  pure (Real.sqrt ((← v.get? 0) * (← v.get? 0) + (← v.get? 1) * (← v.get? 1)))

/-- Embedding of `_magnitude_3d` (src/vectors.rs:110-112). -/
def _magnitude_3d (v : List ℝ) : Option ℝ := do
  pure (Real.sqrt ((← v.get? 0) * (← v.get? 0) + (← v.get? 1) * (← v.get? 1) +
    (← v.get? 2) * (← v.get? 2)))

/-- Embedding of `_normalize_2d` (src/vectors.rs:114-117). -/
def _normalize_2d (v : List ℝ) : Option (List ℝ) := do
  let magnitude ← _magnitude_2d v
  _scale_2d v (1 / magnitude)

/-- Embedding of `_normalize_3d` (src/vectors.rs:119-122). -/
def _normalize_3d (v : List ℝ) : Option (List ℝ) := do
  let magnitude ← _magnitude_3d v
  _scale_3d v (1 / magnitude)

/-- Embedding of `add` dispatcher (src/vectors.rs:3-9): matches on `vector1.len()` only;
any length other than 2 or 3 is the `panic!("Not implemented")` arm. -/
def add (vector1 vector2 : List ℝ) : Except PanicKind (List ℝ) :=
  if vector1.length = 2 then liftPanic (_add_2d vector1 vector2)
  else if vector1.length = 3 then liftPanic (_add_3d vector1 vector2)
  else Except.error PanicKind.notImplemented

/-- Embedding of `subtract` dispatcher (src/vectors.rs:11-17). -/
def subtract (vector1 vector2 : List ℝ) : Except PanicKind (List ℝ) :=
  if vector1.length = 2 then liftPanic (_subtract_2d vector1 vector2)
  else if vector1.length = 3 then liftPanic (_subtract_3d vector1 vector2)
  else Except.error PanicKind.notImplemented

/-- Embedding of `cross` dispatcher (src/vectors.rs:19-24): length 3 only. -/
def cross (vector1 vector2 : List ℝ) : Except PanicKind (List ℝ) :=
  if vector1.length = 3 then liftPanic (_cross_3d vector1 vector2)
  else Except.error PanicKind.notImplemented

/-- Embedding of `dot` dispatcher (src/vectors.rs:26-32). -/
def dot (vector1 vector2 : List ℝ) : Except PanicKind ℝ :=
  if vector1.length = 2 then liftPanic (_dot_2d vector1 vector2)
  else if vector1.length = 3 then liftPanic (_dot_3d vector1 vector2)
  else Except.error PanicKind.notImplemented

/-- Embedding of `scale` dispatcher (src/vectors.rs:34-40). -/
def scale (vector : List ℝ) (scalar : ℝ) : Except PanicKind (List ℝ) :=
  if vector.length = 2 then liftPanic (_scale_2d vector scalar)
  else if vector.length = 3 then liftPanic (_scale_3d vector scalar)
  else Except.error PanicKind.notImplemented

/-- Embedding of `magnitude` dispatcher (src/vectors.rs:42-48). -/
def magnitude (vector : List ℝ) : Except PanicKind ℝ :=
  if vector.length = 2 then liftPanic (_magnitude_2d vector)
  else if vector.length = 3 then liftPanic (_magnitude_3d vector)
  else Except.error PanicKind.notImplemented

/-- Embedding of `normalize` dispatcher (src/vectors.rs:50-56). -/
def normalize (vector : List ℝ) : Except PanicKind (List ℝ) :=
  if vector.length = 2 then liftPanic (_normalize_2d vector)
  else if vector.length = 3 then liftPanic (_normalize_3d vector)
  else Except.error PanicKind.notImplemented

end DynVectors

namespace GenVectors

/-- Embedding of `add` (src/vectors/functions.rs:20-26): `for i in 0..a.len()`, push
`a[i] + b[i]` — no length check at all. -/
def add (a b : List ℝ) : Option (List ℝ) :=
  (List.range a.length).mapM (fun i => do pure ((← a.get? i) + (← b.get? i)))

/-- Embedding of `subtract` (src/vectors/functions.rs:46-52). -/
def subtract (a b : List ℝ) : Option (List ℝ) :=
  (List.range a.length).mapM (fun i => do pure ((← a.get? i) - (← b.get? i)))

/-- Embedding of `dot` (src/vectors/functions.rs:72-78): running sum of `a[i] * b[i]`. -/
def dot (a b : List ℝ) : Option ℝ := do
  let terms ← (List.range a.length).mapM
    (fun i => do pure ((← a.get? i) * (← b.get? i)))
  pure terms.sum

/-- Embedding of `scale` (src/vectors/functions.rs:98-104). -/
def scale (a : List ℝ) (b : ℝ) : Option (List ℝ) :=
  (List.range a.length).mapM (fun i => do pure ((← a.get? i) * b))

end GenVectors

/-- Row access `m[i]` on a dynamic matrix.  The default is never reached on
the in-bounds accesses performed under the shape preconditions of the claims
below (the Rust code would panic out of bounds). -/
def getRow (m : List (List ℝ)) (i : Nat) : List ℝ :=
  (m.get? i).getD []

/-- Element access `row[k]`, with the same in-bounds convention. -/
def idx (l : List ℝ) (i : Nat) : ℝ :=
  (l.get? i).getD 0

namespace DynMatrices

/-- Embedding of `multiply` (src/matrices/functions.rs:80-94): for each `i < a.len()` and
`j < b[0].len()`, the entry is the running sum over `k < a[i].len()` of
`a[i][k] * b[k][j]`. -/
def multiply (a b : List (List ℝ)) : List (List ℝ) :=
  (List.range a.length).map (fun i =>
    (List.range (getRow b 0).length).map (fun j =>
      ((List.range (getRow a i).length).map
        (fun k => idx (getRow a i) k * idx (getRow b k) j)).sum))

/-- Embedding of `identity` (src/matrices/functions.rs:171-185): `size × size`, `1.0` on
the diagonal and `0.0` elsewhere. -/
def identity (size : Nat) : List (List ℝ) :=
  (List.range size).map (fun i =>
    (List.range size).map (fun j => if i = j then (1 : ℝ) else 0))

/-- The sub-matrix built inside `determinant` (src/matrices/functions.rs:
210-219) for column `i`: rows `1..a.len()` with column `i` removed; note the
inner loop ranges `k` over `0..a.len()` (the row count, not the row length). -/
def subMatrix (a : List (List ℝ)) (i : Nat) : List (List ℝ) :=
  a.tail.map (fun row =>
    ((List.range a.length).filter (fun k => k != i)).map (fun k => idx row k))

/-- Embedding of `determinant` (src/matrices/functions.rs:204-227): base case for 2×2,
otherwise signed cofactor expansion along row `0`, recursing into
`subMatrix`.  The only base cases are `a.len() == 2` and the empty
accumulation (which yields `0.0`). -/
def determinant (a : List (List ℝ)) : ℝ :=
  if a.length = 2 then
    idx (getRow a 0) 0 * idx (getRow a 1) 1 - idx (getRow a 0) 1 * idx (getRow a 1) 0
  else
    ((List.range a.length).attach.map (fun i =>
      (if i.1 % 2 = 0 then (1 : ℝ) else -1) *
        (idx (getRow a 0) i.1 * determinant (subMatrix a i.1)))).sum
termination_by a.length
decreasing_by
  have hpos : 0 < a.length := List.mem_range.mp i.2 |>.trans_le (Nat.le_refl _) |> fun h => Nat.pos_of_ne_zero (by omega)
  simpa [subMatrix] using Nat.sub_lt hpos Nat.one_pos

end DynMatrices

/-- Embedding of `Vector3D` (src/vectors/vector3d.rs). -/
structure Vector3D where
  x : ℝ
  y : ℝ
  z : ℝ

namespace Vector3D

/-- Embedding of `Vector3D::element` (src/vectors/vector3d.rs:55-62); the source panics on
an index other than 0, 1, 2 — the default value is never reached by the
matrix code below, which only uses indices 0, 1, 2. -/
def element (v : Vector3D) (index : Nat) : ℝ :=
  match index with
  | 0 => v.x
  | 1 => v.y
  | 2 => v.z
  | _ => 0

end Vector3D

/-- Embedding of `Matrix3x3` (src/matrices/matrix3x3.rs): three `Vector3D`
rows. -/
structure Matrix3x3 where
  row0 : Vector3D
  row1 : Vector3D
  row2 : Vector3D

namespace Matrix3x3

/-- Embedding of `Matrix3x3::determinant` (src/matrices/matrix3x3.rs:32-42): closed-form
cofactor expansion along the first row. -/
def determinant (m : Matrix3x3) : ℝ :=
  m.row0.element 0 *
      (m.row1.element 1 * m.row2.element 2 - m.row1.element 2 * m.row2.element 1)
    - m.row0.element 1 *
      (m.row1.element 0 * m.row2.element 2 - m.row1.element 2 * m.row2.element 0)
    + m.row0.element 2 *
      (m.row1.element 0 * m.row2.element 1 - m.row1.element 1 * m.row2.element 0)

end Matrix3x3

namespace Mat3Arrays

/-- Embedding of `determinant_3x3` (src/matrix_functions/matrix_3x3_functions.rs:54-58),
over `[[f64; 3]; 3]` modelled as `Fin 3 → Fin 3 → ℝ`. -/
def determinant_3x3 (a : Fin 3 → Fin 3 → ℝ) : ℝ :=
  a 0 0 * (a 1 1 * a 2 2 - a 1 2 * a 2 1)
    - a 0 1 * (a 1 0 * a 2 2 - a 1 2 * a 2 0)
    + a 0 2 * (a 1 0 * a 2 1 - a 1 1 * a 2 0)

end Mat3Arrays

/-- C4: vector addition on `CartesianVector` is associative:
`a.plus(b).plus(c) == a.plus(b.plus(c))` for all 3D vectors `a`, `b`, `c`. -/
theorem plus_assoc (a b c : CartesianVector) :
    (a.plus b).plus c = a.plus (b.plus c) := by
  simp only [CartesianVector.plus, CartesianVector.mk.injEq]
  exact ⟨add_assoc _ _ _, add_assoc _ _ _, add_assoc _ _ _⟩

/-- C7: rotation by angle `0` about the x axis is the identity:
`v.rotate_about_x(0.0) == v` for every 3D vector `v`. -/
theorem rotate_about_x_zero (v : CartesianVector) :
    v.rotate_about_x 0 = v := by
  simp [CartesianVector.rotate_about_x]

/-- C1: the spherical round-trip fails on the code: `to_spherical` computes the
declination with `acos(z/r)` (polar-angle convention) while `to_cartesian`
treats the declination as an elevation (`z = r·sin(decl)`), so the unit vector
`(0,0,1)` round-trips to `(1,0,0)`, not back to itself. -/
theorem to_spherical_to_cartesian_not_roundtrip :
    (CartesianVector.new 0 0 1).to_spherical.to_cartesian = CartesianVector.new 1 0 0 ∧
      CartesianVector.new 1 0 0 ≠ CartesianVector.new 0 0 1 := by
  constructor
  · simp [CartesianVector.new, CartesianVector.to_spherical, CartesianVector.magnitude,
      CartesianVector.atan2, SphericalVector.to_cartesian, Real.sqrt_one, Real.arccos_one]
  · simp [CartesianVector.new, CartesianVector.mk.injEq]

/-- C2 (amended): the length-dispatching functions of src/vectors.rs — `add`,
`subtract`, `dot`, `scale`, `magnitude`, `normalize` (and `cross`, which
supports length 3 only) — all fail with the unsupported-dimension panic
(`panic!("Not implemented")`) on a first argument whose length is neither 2
nor 3, never producing a result. -/
theorem dyn_dispatch_unsupported_dimension (v1 v2 : List ℝ) (c : ℝ)
    (h2 : v1.length ≠ 2) (h3 : v1.length ≠ 3) :
    DynVectors.add v1 v2 = Except.error PanicKind.notImplemented ∧
    DynVectors.subtract v1 v2 = Except.error PanicKind.notImplemented ∧
    DynVectors.dot v1 v2 = Except.error PanicKind.notImplemented ∧
    DynVectors.scale v1 c = Except.error PanicKind.notImplemented ∧
    DynVectors.magnitude v1 = Except.error PanicKind.notImplemented ∧
    DynVectors.normalize v1 = Except.error PanicKind.notImplemented ∧
    DynVectors.cross v1 v2 = Except.error PanicKind.notImplemented := by
  refine ⟨?_, ?_, ?_, ?_, ?_, ?_, ?_⟩ <;>
    simp [DynVectors.add, DynVectors.subtract, DynVectors.dot, DynVectors.scale,
      DynVectors.magnitude, DynVectors.normalize, DynVectors.cross, h2, h3]

/-- C2 witness: the amended theorem at length-4 inputs. -/
theorem dyn_dispatch_unsupported_dimension_witness :
    DynVectors.add [1, 2, 3, 4] [5, 6, 7, 8] = Except.error PanicKind.notImplemented ∧
    DynVectors.subtract [1, 2, 3, 4] [5, 6, 7, 8] = Except.error PanicKind.notImplemented ∧
    DynVectors.dot [1, 2, 3, 4] [5, 6, 7, 8] = Except.error PanicKind.notImplemented ∧
    DynVectors.scale [1, 2, 3, 4] 2 = Except.error PanicKind.notImplemented ∧
    DynVectors.magnitude [1, 2, 3, 4] = Except.error PanicKind.notImplemented ∧
    DynVectors.normalize [1, 2, 3, 4] = Except.error PanicKind.notImplemented ∧
    DynVectors.cross [1, 2, 3, 4] [5, 6, 7, 8] = Except.error PanicKind.notImplemented :=
  dyn_dispatch_unsupported_dimension [1, 2, 3, 4] [5, 6, 7, 8] 2
    (by simp) (by simp)

/-- C2 counterexample: the claim is false for the other cited dynamic `add`,
src/vectors/functions.rs:20-26, which performs no length check: on length-4
vectors it succeeds and returns the element-wise sum instead of failing with
an unsupported-dimension error. -/
theorem gen_add_length4_returns_result :
    GenVectors.add [1, 2, 3, 4] [5, 6, 7, 8] = some [6, 8, 10, 12] := by
  show (List.range 4).mapM _ = _
  rw [show List.range 4 = [0, 1, 2, 3] from rfl]
  simp [List.mapM, List.mapM.loop]
  norm_num

/-- C6: `normalize` of the zero vector does not abort: the magnitude is `0`,
`1.0 / 0.0` is `+∞`, and `0.0 * ∞` is `NaN`, so every component of the result
is `NaN` — for both `CartesianVector::normalize` and the dynamic
`_normalize_3d`, in the IEEE special-value model. -/
theorem normalize_zero_vector_nan :
    (FPCartesianVector.mk (FP.fin 0) (FP.fin 0) (FP.fin 0)).normalize =
      FPCartesianVector.mk FP.nan FP.nan FP.nan ∧
    FPDynVectors._normalize_3d [FP.fin 0, FP.fin 0, FP.fin 0] =
      [FP.nan, FP.nan, FP.nan] := by
  constructor
  · simp [FPCartesianVector.normalize, FPCartesianVector.magnitude,
      FPCartesianVector.scale, FP.mul, FP.add, FP.sqrt, FP.div]
  · simp [FPDynVectors._normalize_3d, FPDynVectors._magnitude_3d,
      FPDynVectors._scale_3d, fpIdx, FP.mul, FP.add, FP.sqrt, FP.div, List.get?]

/-- Bridge from the loop accumulation to a `Finset` sum. -/
lemma sum_map_range (n : ℕ) (f : ℕ → ℝ) :
    ((List.range n).map f).sum = ∑ k ∈ Finset.range n, f k := by
  induction n with
  | zero => simp
  | succ k ih => simp [List.range_succ, Finset.sum_range_succ, ih]

lemma getRow_eq_getElem {M : List (List ℝ)} {i : ℕ} (h : i < M.length) :
    getRow M i = M[i] := by
  simp [getRow, List.get?_eq_getElem?, List.getElem?_eq_getElem h]

lemma idx_eq_getElem {l : List ℝ} {j : ℕ} (h : j < l.length) :
    idx l j = l[j] := by
  simp [idx, List.get?_eq_getElem?, List.getElem?_eq_getElem h]

lemma identity_length (n : ℕ) : (DynMatrices.identity n).length = n := by
  simp [DynMatrices.identity]

lemma getRow_identity {n i : ℕ} (hi : i < n) :
    getRow (DynMatrices.identity n) i =
      (List.range n).map (fun j => if i = j then (1 : ℝ) else 0) := by
  rw [getRow_eq_getElem (by simpa [DynMatrices.identity] using hi)]
  simp [DynMatrices.identity]

lemma idx_getRow_identity {n i k : ℕ} (hi : i < n) (hk : k < n) :
    idx (getRow (DynMatrices.identity n) i) k = if i = k then 1 else 0 := by
  rw [getRow_identity hi, idx_eq_getElem (by simpa using hk)]
  simp

lemma determinant_nil : DynMatrices.determinant ([] : List (List ℝ)) = 0 := by
  rw [DynMatrices.determinant]
  simp

/-- The 2×2 base case of the recursive determinant, in closed form. -/
lemma determinant_two (p q r s : ℝ) :
    DynMatrices.determinant [[p, q], [r, s]] = p * s - q * r := by
  rw [DynMatrices.determinant]
  simp [getRow, idx, List.get?]

/-- Cofactor-expansion unfolding of the recursive determinant outside the
2×2 base case, with the `attach` used for termination eliminated. -/
lemma determinant_expand (a : List (List ℝ)) (hne : a.length ≠ 2) :
    DynMatrices.determinant a =
      ((List.range a.length).map (fun i =>
        (if i % 2 = 0 then (1 : ℝ) else -1) *
          (idx (getRow a 0) i * DynMatrices.determinant (DynMatrices.subMatrix a i)))).sum := by
  rw [DynMatrices.determinant, if_neg hne]
  exact congrArg List.sum
    (List.attach_map_val (List.range a.length)
      (fun i => (if i % 2 = 0 then (1 : ℝ) else -1) *
        (idx (getRow a 0) i * DynMatrices.determinant (DynMatrices.subMatrix a i))))

/-- The recursive determinant on a 3×3 matrix, in closed form. -/
lemma determinant_three (a b c d e f g h i : ℝ) :
    DynMatrices.determinant [[a, b, c], [d, e, f], [g, h, i]] =
      a * (e * i - f * h) - b * (d * i - f * g) + c * (d * h - e * g) := by
  have h0 : DynMatrices.subMatrix [[a, b, c], [d, e, f], [g, h, i]] 0 = [[e, f], [h, i]] := by
    simp [DynMatrices.subMatrix, idx, List.range_succ, List.filter, List.get?]
  have h1 : DynMatrices.subMatrix [[a, b, c], [d, e, f], [g, h, i]] 1 = [[d, f], [g, i]] := by
    simp [DynMatrices.subMatrix, idx, List.range_succ, List.filter, List.get?]
  have h2 : DynMatrices.subMatrix [[a, b, c], [d, e, f], [g, h, i]] 2 = [[d, e], [g, h]] := by
    simp [DynMatrices.subMatrix, idx, List.range_succ, List.filter, List.get?]
  rw [determinant_expand _ (by simp)]
  norm_num [List.range_succ, h0, h1, h2, determinant_two, getRow, idx, List.get?]
  ring

/-- C3: multiplying `identity(n)` by any rectangular matrix `M` with `n` rows
returns `M` unchanged. -/
theorem multiply_identity (n m : Nat) (M : List (List ℝ)) (hn : M.length = n)
    (hrect : ∀ r ∈ M, r.length = m) :
    DynMatrices.multiply (DynMatrices.identity n) M = M := by
  subst hn
  by_cases hM : M = []
  · subst hM
    simp [DynMatrices.multiply, DynMatrices.identity]
  · have hpos : 0 < M.length := List.length_pos.mpr hM
    have hm0 : (getRow M 0).length = m := by
      rw [getRow_eq_getElem hpos]
      exact hrect _ (List.getElem_mem hpos)
    apply List.ext_getElem
    · simp [DynMatrices.multiply, identity_length]
    intro i h1 h2
    simp only [DynMatrices.multiply, identity_length, List.getElem_map, List.getElem_range]
    apply List.ext_getElem
    · simp [hm0, hrect _ (List.getElem_mem h2)]
    intro j hj1 hj2
    simp only [List.getElem_map, List.getElem_range]
    have hrowlen : (getRow (DynMatrices.identity M.length) i).length = M.length := by
      rw [getRow_identity h2]
      simp
    rw [hrowlen, sum_map_range]
    have hcong : ∀ k ∈ Finset.range M.length,
        idx (getRow (DynMatrices.identity M.length) i) k * idx (getRow M k) j
          = if i = k then idx (getRow M k) j else 0 := by
      intro k hk
      rw [idx_getRow_identity h2 (Finset.mem_range.mp hk)]
      split <;> simp
    rw [Finset.sum_congr rfl hcong, Finset.sum_ite_eq]
    rw [if_pos (Finset.mem_range.mpr h2), getRow_eq_getElem h2, idx_eq_getElem hj2]

/-- C3 witness: `identity(2) * [[1,2],[3,4]] = [[1,2],[3,4]]`. -/
theorem multiply_identity_witness :
    DynMatrices.multiply (DynMatrices.identity 2) [[1, 2], [3, 4]] = [[1, 2], [3, 4]] :=
  multiply_identity 2 2 [[1, 2], [3, 4]] rfl (by simp)

/-- C5: a 3×3 matrix with two identical rows has determinant `0.0`, both for
the closed-form `Matrix3x3::determinant` and for the recursive dynamic
`determinant` applied to the same nine entries. -/
theorem determinant_repeated_row_zero (M : Matrix3x3)
    (h : M.row0 = M.row1 ∨ M.row0 = M.row2 ∨ M.row1 = M.row2) :
    M.determinant = 0 ∧
    DynMatrices.determinant
      [[M.row0.x, M.row0.y, M.row0.z],
       [M.row1.x, M.row1.y, M.row1.z],
       [M.row2.x, M.row2.y, M.row2.z]] = 0 := by
  obtain ⟨⟨a, b, c⟩, ⟨d, e, f⟩, ⟨g, h2, i2⟩⟩ := M
  refine ⟨?_, ?_⟩ <;>
  · first
    | rw [determinant_three]
    | simp only [Matrix3x3.determinant, Vector3D.element]
    rcases h with h | h | h <;>
      (simp only [Vector3D.mk.injEq] at h
       obtain ⟨hx, hy, hz⟩ := h
       subst hx
       subst hy
       subst hz
       ring)

/-- C5 witness: a concrete matrix with two identical rows. -/
theorem determinant_repeated_row_zero_witness :
    (Matrix3x3.mk ⟨1, 2, 3⟩ ⟨1, 2, 3⟩ ⟨4, 5, 6⟩).determinant = 0 ∧
    DynMatrices.determinant [[1, 2, 3], [1, 2, 3], [4, 5, 6]] = 0 :=
  determinant_repeated_row_zero ⟨⟨1, 2, 3⟩, ⟨1, 2, 3⟩, ⟨4, 5, 6⟩⟩ (Or.inl rfl)

/-- C9: the recursive dynamic determinant of the 1×1 matrix `[[c]]` is `0.0`
rather than `c`: the only base case is 2×2, and the recursive call on the
resulting 0×0 sub-matrix contributes the factor `0.0`. -/
theorem determinant_one_by_one (c : ℝ) : DynMatrices.determinant [[c]] = 0 := by
  rw [DynMatrices.determinant]
  simp [DynMatrices.subMatrix, determinant_nil, List.range_succ]

/-- C10: on any 3×3 input the three determinant implementations — the
recursive dynamic `determinant`, the closed-form `Matrix3x3::determinant`,
and the array-based `determinant_3x3` — return equal values. -/
theorem determinants_agree (a b c d e f g h i : ℝ) :
    DynMatrices.determinant [[a, b, c], [d, e, f], [g, h, i]] =
      (Matrix3x3.mk ⟨a, b, c⟩ ⟨d, e, f⟩ ⟨g, h, i⟩).determinant ∧
    (Matrix3x3.mk ⟨a, b, c⟩ ⟨d, e, f⟩ ⟨g, h, i⟩).determinant =
      Mat3Arrays.determinant_3x3 ![![a, b, c], ![d, e, f], ![g, h, i]] := by
  constructor
  · rw [determinant_three]
    simp only [Matrix3x3.determinant, Vector3D.element]
  · simp only [Matrix3x3.determinant, Vector3D.element, Mat3Arrays.determinant_3x3]
    simp

/-- C8: the dispatchers inspect only the first argument's length and never
cross-check the second: with a first vector of length 2 and an empty second
vector, `add`, `subtract` and `dot` fail with the index-out-of-bounds panic,
not the unsupported-dimension panic. -/
theorem dyn_dispatch_index_out_of_bounds :
    DynVectors.add [1, 2] [] = Except.error PanicKind.indexOutOfBounds ∧
    DynVectors.subtract [1, 2] [] = Except.error PanicKind.indexOutOfBounds ∧
    DynVectors.dot [1, 2] [] = Except.error PanicKind.indexOutOfBounds := by
  refine ⟨rfl, rfl, rfl⟩

end
